import Mathlib

/-!
Shallow embedding of `loader_hub/github_repo/base.py`
(`GithubRepositoryReader`): the filter engine, the recursive tree walk,
the selector validation in `load_data`, and the document synthesis
pipeline of `_generate_documents` / `_parse_supported_file`.

Python exceptions are modelled with `Except PyError`; `None`-able values
with `Option`.  External collaborators (the Github API client, the
base64/utf-8 codecs of the standard library, and the parser registry
`DEFAULT_FILE_EXTRACTOR`) are parameters of the embedding, as the spec
declares them out of scope.
-/

namespace GithubRepo

/-- Embeds `GithubRepositoryReader.FilterType`: INCLUDE / EXCLUDE filter modes. -/
inductive FilterType where
  | EXCLUDE
  | INCLUDE
deriving DecidableEq

/-- Exceptions that the embedded code can raise.
`typeError` models the `TypeError` raised by tuple-unpacking `None`
(`filter_directories, filter_type = self._filter_directories` when the
attribute is `None`); `assertionError` models a failing `assert`
statement; `valueError` models `raise ValueError(...)`; `apiError`
models any exception escaping a Github API client call;
`invalidConcurrency` models the concurrency-limit validation error of
the blob fetch iterator (see `bufferedIteratorInit`). -/
inductive PyError where
  | typeError
  | valueError (msg : String)
  | assertionError (msg : String)
  | apiError
  | invalidConcurrency
deriving DecidableEq

/-- A node of the Git tree as returned by `get_tree`
(`GitTreeResponseModel.GitTreeObject`): a name segment `path`, a `type`
string (`"tree"`, `"blob"`, or anything else), a `sha`, and — so that
the walk can be embedded as a terminating recursion — the children that
`get_tree(sha)` would return for a `"tree"` node. -/
inductive GitObj : Type where
  | mk (path : String) (type : String) (sha : String) (children : List GitObj)

def GitObj.path : GitObj → String
  | .mk p _ _ _ => p

def GitObj.type : GitObj → String
  | .mk _ t _ _ => t

def GitObj.sha : GitObj → String
  | .mk _ _ s _ => s

def GitObj.children : GitObj → List GitObj
  | .mk _ _ _ c => c

/-- The reader state set up by `GithubRepositoryReader.__init__`: the
fields that the walk and the synthesis pipeline consult.  The
constructor performs no validation on any of them. -/
structure ReaderConfig where
  useParser : Bool
  concurrent_requests : Int
  filter_directories : Option (List String × FilterType)
  filter_file_extensions : Option (List String × FilterType)

/-- Embeds Python `s.startswith(pre)`: character-list prefix test. -/
def pyStartsWith (s pre : String) : Bool :=
  pre.data.isPrefixOf s.data

/-- Embeds Python `s.endswith(suf)`: character-list suffix test. -/
def pyEndsWith (s suf : String) : Bool :=
  suf.data.isSuffixOf s.data

/-- Embeds `GithubRepositoryReader._check_filter_directories`.  The first
statement unpacks `self._filter_directories`; when that attribute is
`None` this raises `TypeError`.  Otherwise the path is admitted under
EXCLUDE iff no configured directory is a string prefix of the path or
vice versa, and under INCLUDE iff some configured directory is. -/
def check_filter_directories (cfg : ReaderConfig) (tree_obj_path : String) :
    Except PyError Bool :=
  match cfg.filter_directories with
  | none => .error .typeError
  | some (filter_directories, filter_type) =>
    match filter_type with
    | .EXCLUDE => .ok (!(filter_directories.any fun directory =>
        pyStartsWith tree_obj_path directory || pyStartsWith directory tree_obj_path))
    | .INCLUDE => .ok (filter_directories.any fun directory =>
        pyStartsWith tree_obj_path directory || pyStartsWith directory tree_obj_path)

/-- Modelled from the spec: helper for `get_file_extension`.  Returns the
suffix of the character list starting at its final `'.'` (dot
included), or `none` when no dot occurs. -/
def extensionFrom : List Char → Option (List Char)
  | [] => none
  | c :: cs =>
    match extensionFrom cs with
    | some e => some e
    | none => if c = '.' then some (c :: cs) else none

/-- Modelled from the spec: `utils.get_file_extension` lives in
`github_repo/utils.py`, which is not under `src/`.  Per the spec's
extension-filter examples (EXCLUDE with patterns such as `".png"`
rejects `"a.png"`), the extension is the suffix of the path starting at
its final dot, dot included, and empty when the path has no dot. -/
def get_file_extension (p : String) : String :=
  match extensionFrom p.data with
  | some e => String.mk e
  | none => ""

/-- Embeds `GithubRepositoryReader._check_filter_file_extensions`.
Unpacks `self._filter_file_extensions` (raising `TypeError` when
`None`), then admits under EXCLUDE iff the path's extension is not in
the configured list, and under INCLUDE iff it is. -/
def check_filter_file_extensions (cfg : ReaderConfig) (tree_obj_path : String) :
    Except PyError Bool :=
  match cfg.filter_file_extensions with
  | none => .error .typeError
  | some (filter_file_extensions, filter_type) =>
    match filter_type with
    | .EXCLUDE => .ok (!(filter_file_extensions.contains (get_file_extension tree_obj_path)))
    | .INCLUDE => .ok (filter_file_extensions.contains (get_file_extension tree_obj_path))

/-- Embeds `GithubRepositoryReader._allow_tree_obj`: directory filter
first when configured, else extension filter when configured, else
admit.  (Defined in the source but never called by `_recurse_tree`.) -/
def allow_tree_obj (cfg : ReaderConfig) (tree_obj_path : String) :
    Except PyError Bool :=
  match cfg.filter_directories with
  | some _ => check_filter_directories cfg tree_obj_path
  | none =>
    match cfg.filter_file_extensions with
    | some _ => check_filter_file_extensions cfg tree_obj_path
    | none => .ok true

/-- Embeds `os.path.join(current_path, p)` for the shapes arising in the
walk: child segments are relative, so the result is `p` when
`current_path` is empty and `current_path ++ "/" ++ p` otherwise. -/
def osPathJoin (current_path p : String) : String :=
  if pyStartsWith p "/" then p
  else if current_path = "" then p
  else if pyEndsWith current_path "/" then current_path ++ p
  else current_path ++ "/" ++ p

/-- Embeds `GithubRepositoryReader._recurse_tree` over the children list
of the current tree (the `get_tree` call is modelled by the `children`
field of `GitObj`).  For each child, in order: build `file_path`; for a
`"tree"` child check the directory filter and either skip the subtree
or recurse into it; for a `"blob"` child check the extension filter and
either skip it or accumulate `(child, file_path)`; any other type is
passed over.  An exception anywhere aborts the walk.  (The local
variable `file_path = os.path.join(current_path, tree_obj.path)` of the
source is inlined as `osPathJoin current_path p` at each use.) -/
def recurse_tree (cfg : ReaderConfig) (objs : List GitObj) (current_path : String) :
    Except PyError (List (GitObj × String)) :=
  match objs with
  | [] => .ok []
  | GitObj.mk p t s children :: rest =>
    if t = "tree" then
      match check_filter_directories cfg (osPathJoin current_path p) with
      | .error e => .error e
      | .ok false => recurse_tree cfg rest current_path
      | .ok true =>
        match recurse_tree cfg children (osPathJoin current_path p) with
        | .error e => .error e
        | .ok sub =>
          match recurse_tree cfg rest current_path with
          | .error e => .error e
          | .ok more => .ok (sub ++ more)
    else if t = "blob" then
      match check_filter_file_extensions cfg (osPathJoin current_path p) with
      | .error e => .error e
      | .ok false => recurse_tree cfg rest current_path
      | .ok true =>
        match recurse_tree cfg rest current_path with
        | .error e => .error e
        | .ok more => .ok ((GitObj.mk p t s children, osPathJoin current_path p) :: more)
    else
      recurse_tree cfg rest current_path

/-- A fetched blob as returned by `get_blob`
(`GitBlobResponseModel`): the declared `encoding`, the raw `content`
text (base64 when the encoding says so), and the blob's `sha`. -/
structure BlobData where
  encoding : String
  content : String
  sha : String

/-- The output unit: embeds `Document(text=..., doc_id=...,
extra_info={"file_path": ..., "file_name": ...})`. -/
structure Document where
  text : String
  doc_id : String
  file_path : String
  file_name : String
deriving DecidableEq

/-- External collaborators used by the document synthesis pipeline, out
of scope per the spec: `base64.b64decode` (fails with
`binascii.Error`), `bytes.decode("utf-8")` (fails with
`UnicodeDecodeError`), and the parser registry
`DEFAULT_FILE_EXTRACTOR` keyed by file extension, whose parsers consume
the decoded bytes (written to a temporary file in the source; the file
mechanics are modelled separately by `parse_supported_file_tempfs`) and
return the text segments of `parse_file`, or fail. -/
structure SynthEnv where
  b64decode : String → Except Unit (List Nat)
  utf8decode : List Nat → Except Unit String
  parserLookup : String → Option (List Nat → Except String (List String))

/-- Embeds the helper for `full_path.split("/")[-1]`: the characters
after the last separator, or `none` when the separator is absent. -/
def afterLast (sep : Char) : List Char → Option (List Char)
  | [] => none
  | c :: cs =>
    match afterLast sep cs with
    | some r => some r
    | none => if c = sep then some cs else none

/-- Embeds `full_path.split("/")[-1]`: the last `/`-separated segment of
the path (the whole path when it contains no `/`). -/
def pyBasename (p : String) : String :=
  match afterLast '/' p.data with
  | some r => String.mk r
  | none => p

/-- Embeds `GithubRepositoryReader._parse_supported_file` at content
level: look up a parser for the file extension of `file_path`; when
none is registered return `None`; otherwise run the parser on the file
content — on failure return `None`, on success join the produced
segments with a double newline and return a `Document` whose
`file_name` is `tree_path` (at the call site: the full repository
path). -/
def parse_supported_file (env : SynthEnv) (file_path : String)
    (file_content : List Nat) (tree_sha : String) (tree_path : String) :
    Option Document :=
  match env.parserLookup (get_file_extension file_path) with
  | none => none
  | some parse_file =>
    match parse_file file_content with
    | .error _ => none
    | .ok parsed_file =>
      some { text := String.intercalate "\n\n" parsed_file
             doc_id := tree_sha
             file_path := file_path
             file_name := tree_path }

/-- Modelled from the spec: the constructor of
`BufferedGitBlobDataIterator` (in `github_repo/utils.py`, not under
`src/`) validates the concurrency limit it is given as `buffer_size`:
a limit of at least 1 is accepted, 0 or negative fails with the
`InvalidConcurrency` validation error. -/
def bufferedIteratorInit (buffer_size : Int) : Except PyError Unit :=
  if 1 ≤ buffer_size then .ok () else .error .invalidConcurrency

/-- Embeds one iteration of the `async for` loop body of
`GithubRepositoryReader._generate_documents` for a fetched
`(blob_data, full_path)` pair: assert the encoding is base64 (a failing
assert escapes as `AssertionError`); base64-decode the content
(malformed input skips the blob: `.ok none`); when `useParser` is set
try `_parse_supported_file` and emit its document when it returns one;
otherwise fall back to utf-8 decoding of the decoded bytes (failure
skips the blob) and emit a `Document` whose `file_name` is the last
path segment. -/
def generate_document (cfg : ReaderConfig) (env : SynthEnv)
    (blob_data : BlobData) (full_path : String) :
    Except PyError (Option Document) :=
  if blob_data.encoding ≠ "base64" then
    .error (.assertionError ("blob encoding " ++ blob_data.encoding ++ " not supported"))
  else
    match env.b64decode blob_data.content with
    | .error _ => .ok none
    | .ok decoded_bytes =>
      let parsed : Option Document :=
        if cfg.useParser then
          parse_supported_file env full_path decoded_bytes blob_data.sha full_path
        else none
      match parsed with
      | some document => .ok (some document)
      | none =>
        match env.utf8decode decoded_bytes with
        | .error _ => .ok none
        | .ok decoded_text =>
          .ok (some { text := decoded_text
                      doc_id := blob_data.sha
                      file_path := full_path
                      file_name := pyBasename full_path })

/-- Embeds the `async for` loop of
`GithubRepositoryReader._generate_documents`: synthesize each fetched
pair in order, collecting emitted documents; an exception escaping one
iteration aborts the whole loop. -/
def generate_documents_loop (cfg : ReaderConfig) (env : SynthEnv) :
    List (BlobData × String) → Except PyError (List Document)
  | [] => .ok []
  | (blob_data, full_path) :: rest =>
    match generate_document cfg env blob_data full_path with
    | .error e => .error e
    | .ok none => generate_documents_loop cfg env rest
    | .ok (some document) =>
      match generate_documents_loop cfg env rest with
      | .error e => .error e
      | .ok documents => .ok (document :: documents)

/-- Embeds `GithubRepositoryReader._generate_documents`: construct the
`BufferedGitBlobDataIterator` over the walked blob references with
`buffer_size = self._concurrent_requests` (its validation is modelled
from the spec by `bufferedIteratorInit`), then run the synthesis loop
over the fetched contents.  Blob retrieval is modelled by `fetch`; the
fetcher's completion-order nondeterminism is not modelled — the claims
settled here are insensitive to the order of the pairs. -/
def generate_documents (cfg : ReaderConfig) (env : SynthEnv)
    (fetch : GitObj → BlobData) (blobs_and_paths : List (GitObj × String)) :
    Except PyError (List Document) :=
  match bufferedIteratorInit cfg.concurrent_requests with
  | .error e => .error e
  | .ok _ =>
    generate_documents_loop cfg env
      (blobs_and_paths.map fun bp => (fetch bp.1, bp.2))

/-- Embeds `GithubRepositoryReader._load_data_from_commit`: resolve the
commit to a root tree via `get_commit` (a remote call that may fail;
its outcome is the `commit_api` parameter, an `apiError` aborting the
run), walk the tree, then generate the documents. -/
def load_data_from_commit (cfg : ReaderConfig) (env : SynthEnv)
    (fetch : GitObj → BlobData) (commit_api : Except PyError (List GitObj)) :
    Except PyError (List Document) :=
  match commit_api with
  | .error e => .error e
  | .ok root =>
    match recurse_tree cfg root "" with
    | .error e => .error e
    | .ok blobs_and_paths => generate_documents cfg env fetch blobs_and_paths

/-- Embeds `GithubRepositoryReader._load_data_from_branch`: resolve the
branch to a root tree via `get_branch` (outcome in `branch_api`), walk
the tree, then generate the documents. -/
def load_data_from_branch (cfg : ReaderConfig) (env : SynthEnv)
    (fetch : GitObj → BlobData) (branch_api : Except PyError (List GitObj)) :
    Except PyError (List Document) :=
  match branch_api with
  | .error e => .error e
  | .ok root =>
    match recurse_tree cfg root "" with
    | .error e => .error e
    | .ok blobs_and_paths => generate_documents cfg env fetch blobs_and_paths

/-- Embeds `GithubRepositoryReader.load_data`: raise `ValueError` when
both `commit_sha` and `branch` are supplied, raise `ValueError` when
neither is, otherwise dispatch to the commit or branch load path. -/
def load_data (cfg : ReaderConfig) (env : SynthEnv) (fetch : GitObj → BlobData)
    (commit_api branch_api : Except PyError (List GitObj))
    (commit_sha branch : Option String) : Except PyError (List Document) :=
  if commit_sha.isSome && branch.isSome then
    .error (.valueError "You can only specify one of commit or branch.")
  else if commit_sha.isNone && branch.isNone then
    .error (.valueError "You must specify one of commit or branch.")
  else if commit_sha.isSome then
    load_data_from_commit cfg env fetch commit_api
  else if branch.isSome then
    load_data_from_branch cfg env fetch branch_api
  else
    .error (.valueError "You must specify one of commit or branch.")

/-- Embeds `GithubRepositoryReader._parse_supported_file` at filesystem
level, for the temporary-file lifecycle: the filesystem is the list of
existing file names; `NamedTemporaryFile` (inside a fresh
`TemporaryDirectory`) creates the uniquely named file `tmpname`, the
decoded bytes are written to it and the parser runs on it (outcome
`parse_file`, caught by `except Exception` which leaves `parsed_file`
as `None`), and the `finally` block runs `os.remove(tmpfile.name)`.
Returns the joined text (or `none` on parser failure) together with the
filesystem after the call. -/
def parse_supported_file_tempfs (fs : List String) (tmpname : String)
    (parse_file : Except String (List String)) :
    Option String × List String :=
  let fs_with_tmp := tmpname :: fs
  let parsed_file : Option String :=
    match parse_file with
    | .ok segments => some (String.intercalate "\n\n" segments)
    | .error _ => none
  let fs_after := fs_with_tmp.erase tmpname
  (parsed_file, fs_after)

/-! Concrete fixtures used by witnesses and counterexamples. -/

/-- Directory filter INCLUDE with the single pattern `docs`. -/
def cfg_include_docs : ReaderConfig :=
  ⟨false, 5, some (["docs"], .INCLUDE), none⟩

/-- Both filters left at their constructor default `None`. -/
def cfg_no_filters : ReaderConfig :=
  ⟨false, 5, none, none⟩

/-- Extension filter configured, directory filter `None`. -/
def cfg_no_dirs : ReaderConfig :=
  ⟨false, 5, none, some ([".png"], .EXCLUDE)⟩

/-- Directory filter configured, extension filter `None`. -/
def cfg_no_exts : ReaderConfig :=
  ⟨false, 5, some (["docs"], .EXCLUDE), none⟩

/-- Both filters configured; extensions EXCLUDE `.png`. -/
def cfg_both_png : ReaderConfig :=
  ⟨false, 5, some (["docs"], .EXCLUDE), some ([".png"], .EXCLUDE)⟩

/-- Both filters configured with the same directory spec as
`cfg_both_png`; extensions EXCLUDE `.md` instead. -/
def cfg_both_md : ReaderConfig :=
  ⟨false, 5, some (["docs"], .EXCLUDE), some ([".md"], .EXCLUDE)⟩

/-- A root-level blob named `a.png`. -/
def obj_apng : GitObj := GitObj.mk "a.png" "blob" "sha-apng" []

/-- Parser use disabled, concurrency 5, both filters configured. -/
def cfg_fallback : ReaderConfig :=
  ⟨false, 5, some (["docs"], .EXCLUDE), some ([".png"], .EXCLUDE)⟩

/-- Parser use enabled, concurrency 5. -/
def cfg_parsing : ReaderConfig :=
  ⟨true, 5, some (["docs"], .EXCLUDE), some ([".png"], .EXCLUDE)⟩

/-- Concurrency limit 0, filters configured, parser use disabled. -/
def cfg_conc0 : ReaderConfig :=
  ⟨false, 0, some (["docs"], .EXCLUDE), some ([".png"], .EXCLUDE)⟩

/-- A synthesis environment with no registered parser whose codecs
always succeed, decoding to the text `hi`. -/
def env_fix : SynthEnv :=
  ⟨fun _ => .ok [104, 105], fun _ => .ok "hi", fun _ => none⟩

/-- A synthesis environment whose registered `.pdf` parser always
raises, and whose codecs always succeed with the text `hi`. -/
def env_parser_fails : SynthEnv :=
  ⟨fun _ => .ok [104, 105], fun _ => .ok "hi",
   fun ext => if ext = ".pdf" then some (fun _ => .error "parse failed") else none⟩

/-- A blob whose declared encoding is `utf-8` rather than `base64`. -/
def blob_bad_enc : BlobData := ⟨"utf-8", "hi", "sha-bad"⟩

/-- A base64-encoded blob fetched for a `.pdf` path. -/
def blob_pdf : BlobData := ⟨"base64", "QUJD", "sha-pdf"⟩

/-- A base64-encoded blob decoding to the text `hi`. -/
def blob_hi : BlobData := ⟨"base64", "aGk=", "sha-hi"⟩

/-- The document emitted for `blob_hi` at path `dir/a.md` on the
fallback path. -/
def doc_hi : Document := ⟨"hi", "sha-hi", "dir/a.md", "a.md"⟩

/-- A blob fetcher returning `blob_hi`-like content for any reference. -/
def fetch_fix : GitObj → BlobData :=
  fun obj => ⟨"base64", "aGk=", obj.sha⟩

end GithubRepo

namespace GithubRepo

/-! Helper lemmas shared by several claim theorems. -/

/-- Any exception raised by the directory filter check is the
`TypeError` from unpacking a `None` filter configuration. -/
theorem check_filter_directories_error_eq (cfg : ReaderConfig) (p : String) (e : PyError)
    (h : check_filter_directories cfg p = .error e) : e = .typeError := by
  unfold check_filter_directories at h
  rcases hd : cfg.filter_directories with _ | ⟨ds, ft⟩ <;> rw [hd] at h
  · exact ((Except.error.injEq _ _).mp h).symm
  · cases ft <;> simp at h

/-- Any exception raised by the extension filter check is the
`TypeError` from unpacking a `None` filter configuration. -/
theorem check_filter_file_extensions_error_eq (cfg : ReaderConfig) (p : String) (e : PyError)
    (h : check_filter_file_extensions cfg p = .error e) : e = .typeError := by
  unfold check_filter_file_extensions at h
  rcases hd : cfg.filter_file_extensions with _ | ⟨es, ft⟩ <;> rw [hd] at h
  · exact ((Except.error.injEq _ _).mp h).symm
  · cases ft <;> simp at h

/-- Any exception escaping the tree walk is a `TypeError`: the only
raise sites reachable from `_recurse_tree` are the two filter checks
unpacking a `None` configuration. -/
theorem recurse_tree_error_eq (cfg : ReaderConfig) (objs : List GitObj) (p : String) :
    ∀ e, recurse_tree cfg objs p = .error e → e = .typeError := by
  induction objs, p using recurse_tree.induct cfg with
  | case1 cp =>
    intro e he; simp [recurse_tree] at he
  | case2 cp p s children rest e' hchk =>
    intro e he; simp [recurse_tree, hchk] at he
    rw [← he]; exact check_filter_directories_error_eq cfg _ e' hchk
  | case3 cp p s children rest hchk ih =>
    intro e he; simp [recurse_tree, hchk] at he
    exact ih e he
  | case4 cp p s children rest hchk e' hsub ih =>
    intro e he; simp [recurse_tree, hchk, hsub] at he
    rw [← he]; exact ih e' hsub
  | case5 cp p s children rest hchk more hsub e' hrest ihc ihr =>
    intro e he; simp [recurse_tree, hchk, hsub, hrest] at he
    rw [← he]; exact ihr e' hrest
  | case6 cp p s children rest hchk more hsub more2 hrest ihc ihr =>
    intro e he; simp [recurse_tree, hchk, hsub, hrest] at he
  | case7 cp p s children rest e' hchk hne =>
    intro e he; simp [recurse_tree, hchk] at he
    rw [← he]; exact check_filter_file_extensions_error_eq cfg _ e' hchk
  | case8 cp p s children rest hchk hne ih =>
    intro e he; simp [recurse_tree, hchk] at he
    exact ih e he
  | case9 cp p s children rest hchk e' hrest hne ih =>
    intro e he; simp [recurse_tree, hchk, hrest] at he
    rw [← he]; exact ih e' hrest
  | case10 cp p s children rest hchk more hrest hne ih =>
    intro e he; simp [recurse_tree, hchk, hrest] at he
  | case11 cp p t s children rest hnt hnb ih =>
    intro e he; simp [recurse_tree, hnt, hnb] at he
    exact ih e he

/-- Every document that `_parse_supported_file` returns carries
`doc_id = tree_sha`, `file_path = file_path`, and
`file_name = tree_path`. -/
theorem parse_supported_file_fields (env : SynthEnv) (fp : String) (fc : List Nat)
    (sha tp : String) (d : Document)
    (h : parse_supported_file env fp fc sha tp = some d) :
    d.doc_id = sha ∧ d.file_path = fp ∧ d.file_name = tp := by
  unfold parse_supported_file at h
  rcases hpl : env.parserLookup (get_file_extension fp) with _ | pf <;> simp [hpl] at h
  rcases hres : pf fc with me | segs <;> simp [hres] at h
  simp [← h]

/-! Claim C1. -/

/-- Claim C1, counterexample: for a blob whose encoding tag is
`utf-8` (not `base64`), the synthesis loop does not skip the blob and
continue (which on this singleton input would produce `.ok []`): the
`assert` in `_generate_documents` raises an `AssertionError` that
escapes and aborts the harvest. -/
theorem nonbase64_encoding_skip_refuted :
    generate_documents_loop cfg_fallback env_fix [(blob_bad_enc, "a.md")] =
      .error (.assertionError "blob encoding utf-8 not supported") ∧
    generate_documents_loop cfg_fallback env_fix [(blob_bad_enc, "a.md")] ≠ .ok [] := by
  have h1 : generate_documents_loop cfg_fallback env_fix [(blob_bad_enc, "a.md")] =
      .error (.assertionError "blob encoding utf-8 not supported") := rfl
  exact ⟨h1, by rw [h1]; exact fun h => Except.noConfusion h⟩

/-- Claim C1, amended: during document synthesis, for every
`(BlobContent, path)` pair whose encoding tag is not `base64`, the
pipeline raises an `AssertionError` naming the unsupported encoding;
the exception escapes the loop and aborts the harvest (the blob is not
skipped and the remaining blobs are not processed). -/
theorem nonbase64_encoding_raises_assertion (cfg : ReaderConfig) (env : SynthEnv)
    (blob_data : BlobData) (full_path : String) (rest : List (BlobData × String))
    (h : blob_data.encoding ≠ "base64") :
    generate_documents_loop cfg env ((blob_data, full_path) :: rest) =
      .error (.assertionError ("blob encoding " ++ blob_data.encoding ++ " not supported")) := by
  simp [generate_documents_loop, generate_document, h]

/-- Claim C1, witness: the amended theorem applied to a concrete
`utf-8`-encoded blob. -/
theorem nonbase64_encoding_raises_assertion_witness :
    generate_documents_loop cfg_parsing env_fix [(blob_bad_enc, "b.md")] =
      .error (.assertionError ("blob encoding " ++ blob_bad_enc.encoding ++ " not supported")) :=
  nonbase64_encoding_raises_assertion cfg_parsing env_fix blob_bad_enc "b.md" []
    (by decide)

/-! Claim C2. -/

/-- Claim C2: evaluation of the walk at the failing input.  With both
FilterSpecs left at their constructor default `None`, walking a tree
with a single blob child `a.md` does not admit every path and complete:
it raises the `TypeError` from `_check_filter_file_extensions`
unpacking `None`, because `_recurse_tree` calls the check functions
unconditionally instead of going through `_allow_tree_obj`. -/
theorem walk_default_filters_typeerror :
    recurse_tree cfg_no_filters [GitObj.mk "a.md" "blob" "sha-c2" []] "" =
      .error .typeError := by
  simp [recurse_tree, check_filter_file_extensions, cfg_no_filters, osPathJoin]

/-! Claim C3. -/

/-- Claim C3, counterexample: two configurations with the same
directory FilterSpec but different extension FilterSpecs walk the same
tree to different results — EXCLUDE `.png` removes the root blob
`a.png` from the walk's result while EXCLUDE `.md` keeps it — so the
extension spec is not a no-op during the walk and the directory spec
alone does not determine the produced blob references. -/
theorem extension_filter_affects_walk_refutes_noop :
    recurse_tree cfg_both_png [obj_apng] "" = .ok [] ∧
    recurse_tree cfg_both_md [obj_apng] "" = .ok [(obj_apng, "a.png")] ∧
    cfg_both_png.filter_directories = cfg_both_md.filter_directories := by
  refine ⟨?_, ?_, rfl⟩ <;>
    simp [recurse_tree, obj_apng, cfg_both_png, cfg_both_md, osPathJoin,
      check_filter_file_extensions, get_file_extension, extensionFrom, pyStartsWith]

/-- Claim C3, amended: when both a directory FilterSpec and an
extension FilterSpec are configured, the walk applies the directory
spec to tree children and the extension spec to blob children: a blob
child rejected by the extension check is removed from the walk's
result, and an admitted blob child is accumulated. -/
theorem walk_blob_extension_check_effective (cfg : ReaderConfig)
    (dirs exts : List String × FilterType)
    (current_path name sha : String) (children rest : List GitObj)
    (_hdirs : cfg.filter_directories = some dirs)
    (_hexts : cfg.filter_file_extensions = some exts) :
    (check_filter_file_extensions cfg (osPathJoin current_path name) = .ok false →
      recurse_tree cfg (GitObj.mk name "blob" sha children :: rest) current_path =
        recurse_tree cfg rest current_path) ∧
    (check_filter_file_extensions cfg (osPathJoin current_path name) = .ok true →
      recurse_tree cfg (GitObj.mk name "blob" sha children :: rest) current_path =
        match recurse_tree cfg rest current_path with
        | .error e => .error e
        | .ok more => .ok ((GitObj.mk name "blob" sha children,
            osPathJoin current_path name) :: more)) := by
  constructor <;> intro hchk <;> simp [recurse_tree, hchk]

/-- Claim C3, witness: the amended theorem applied to the root blob
`a.png` under EXCLUDE `.png`: the blob is dropped, the walk continues
as if the child were absent. -/
theorem walk_blob_extension_check_effective_witness :
    recurse_tree cfg_both_png [GitObj.mk "a.png" "blob" "sha-apng" []] "" =
      recurse_tree cfg_both_png [] "" :=
  (walk_blob_extension_check_effective cfg_both_png (["docs"], .EXCLUDE)
    ([".png"], .EXCLUDE) "" "a.png" "sha-apng" [] [] rfl rfl).1 (by rfl)

/-! Claim C4. -/

/-- Claim C4, counterexample: with the concurrency limit set to `0`,
the run does not fail with `InvalidConcurrency` before any I/O — when
the `get_commit` API call fails, that `ApiError` is what surfaces,
because the limit is only consumed (and can only be validated) when
the blob fetch iterator is constructed, after commit resolution and
the tree walk. -/
theorem concurrency_error_not_before_io :
    load_data_from_commit cfg_conc0 env_fix fetch_fix (.error .apiError) =
      .error .apiError ∧
    cfg_conc0.concurrent_requests = 0 ∧
    PyError.apiError ≠ PyError.invalidConcurrency :=
  ⟨rfl, rfl, by decide⟩

/-- Claim C4, amended (spec-modelled iterator validation): for every
concurrency limit of 0 or negative, a commit harvest whose walk
succeeds fails with `InvalidConcurrency` when the blob fetch iterator
is constructed — after commit resolution and the tree walk, not before
any I/O — and a limit of at least 1 is accepted, the run proceeding to
the synthesis loop. -/
theorem invalid_concurrency_checked_after_walk (cfg : ReaderConfig) (env : SynthEnv)
    (fetch : GitObj → BlobData) (root : List GitObj) (blobs : List (GitObj × String))
    (hwalk : recurse_tree cfg root "" = .ok blobs) :
    (cfg.concurrent_requests ≤ 0 →
      load_data_from_commit cfg env fetch (.ok root) = .error .invalidConcurrency) ∧
    (1 ≤ cfg.concurrent_requests →
      load_data_from_commit cfg env fetch (.ok root) =
        generate_documents_loop cfg env (blobs.map fun bp => (fetch bp.1, bp.2))) := by
  constructor <;> intro hc
  · have hlt : ¬ (1 ≤ cfg.concurrent_requests) := by omega
    simp [load_data_from_commit, hwalk, generate_documents, bufferedIteratorInit, hlt]
  · simp [load_data_from_commit, hwalk, generate_documents, bufferedIteratorInit, hc]

/-- Claim C4, witness: the amended theorem applied to a concurrency
limit of 0 and an empty root tree. -/
theorem invalid_concurrency_checked_after_walk_witness :
    load_data_from_commit cfg_conc0 env_fix fetch_fix (.ok []) =
      .error .invalidConcurrency :=
  (invalid_concurrency_checked_after_walk cfg_conc0 env_fix fetch_fix [] []
    (by simp [recurse_tree])).1 (by decide)

/-! Claim C5. -/

/-- Claim C5, counterexample: under directory filtering in INCLUDE mode
with the pattern set containing only `docs`, the path `doc` is
admitted — the symmetric prefix test succeeds because the configured
directory `docs` starts with the string `doc` — contradicting the
claim that `doc` is not admitted. -/
theorem include_docs_admits_doc :
    check_filter_directories cfg_include_docs "doc" = .ok true := rfl

/-- Claim C5, amended: under directory filtering in INCLUDE mode with
the pattern set containing only `docs`, the path `docs/readme.md` is
admitted, the path `src/main.go` is not admitted, and the path `doc`
is also admitted (by the symmetric string-prefix test, since `docs`
starts with `doc`). -/
theorem include_docs_admission_results :
    check_filter_directories cfg_include_docs "docs/readme.md" = .ok true ∧
    check_filter_directories cfg_include_docs "src/main.go" = .ok false ∧
    check_filter_directories cfg_include_docs "doc" = .ok true :=
  ⟨rfl, rfl, rfl⟩

end GithubRepo

namespace GithubRepo

/-! Claim C6. -/

/-- Claim C6: if structured extraction is enabled and the registered
parser for the blob's extension raises, the failure is non-fatal: the
synthesis of that blob equals the raw-text fallback — utf-8 decoding
of the blob's decoded bytes emits the fallback document, and the blob
is skipped (no exception) exactly when that decoding also fails. -/
theorem parser_failure_falls_back_to_raw_text (cfg : ReaderConfig) (env : SynthEnv)
    (blob_data : BlobData) (full_path : String) (decoded_bytes : List Nat)
    (parse_file : List Nat → Except String (List String)) (msg : String)
    (hup : cfg.useParser = true)
    (henc : blob_data.encoding = "base64")
    (hdec : env.b64decode blob_data.content = .ok decoded_bytes)
    (hparser : env.parserLookup (get_file_extension full_path) = some parse_file)
    (hfail : parse_file decoded_bytes = .error msg) :
    generate_document cfg env blob_data full_path =
      match env.utf8decode decoded_bytes with
      | .ok decoded_text =>
        .ok (some { text := decoded_text
                    doc_id := blob_data.sha
                    file_path := full_path
                    file_name := pyBasename full_path })
      | .error _ => .ok none := by
  simp [generate_document, henc, hdec, hup, parse_supported_file, hparser, hfail]
  cases env.utf8decode decoded_bytes <;> rfl

/-- Claim C6, witness: a `.pdf` blob whose registered parser raises is
synthesized via the utf-8 fallback into a document carrying the decoded
raw text. -/
theorem parser_failure_falls_back_to_raw_text_witness :
    generate_document cfg_parsing env_parser_fails blob_pdf "docs/a.pdf" =
      .ok (some ⟨"hi", "sha-pdf", "docs/a.pdf", "a.pdf"⟩) := by
  have h := parser_failure_falls_back_to_raw_text cfg_parsing env_parser_fails blob_pdf
    "docs/a.pdf" [104, 105] (fun _ => .error "parse failed") "parse failed"
    rfl rfl rfl rfl rfl
  simpa using h

/-! Claim C7. -/

/-- Claim C7: `load_data` with both `commit_sha` and `branch` supplied
raises `ValueError`, with neither supplied raises `ValueError`, and in
both cases the result does not depend on any API outcome (the
`commit_api` and `branch_api` parameters are universally quantified, so
the error is decided before any network activity); with exactly one
supplied the corresponding load path is taken. -/
theorem load_data_selector_validation (cfg : ReaderConfig) (env : SynthEnv)
    (fetch : GitObj → BlobData)
    (commit_api branch_api : Except PyError (List GitObj)) (s b : String) :
    load_data cfg env fetch commit_api branch_api (some s) (some b) =
        .error (.valueError "You can only specify one of commit or branch.") ∧
    load_data cfg env fetch commit_api branch_api none none =
        .error (.valueError "You must specify one of commit or branch.") ∧
    load_data cfg env fetch commit_api branch_api (some s) none =
        load_data_from_commit cfg env fetch commit_api ∧
    load_data cfg env fetch commit_api branch_api none (some b) =
        load_data_from_branch cfg env fetch branch_api :=
  ⟨rfl, rfl, rfl, rfl⟩

/-! Claim C8. -/

/-- Claim C8: every document emitted by the synthesis of one blob
carries the blob's content identifier as its id and the full
repository-relative path as `file_path`; it was produced either by the
parser path — in which case `file_name` is the full path — or by the
raw-text fallback path — in which case `file_name` is the last segment
of the path and its text is the utf-8 decoding of the blob's bytes. -/
theorem generate_document_metadata (cfg : ReaderConfig) (env : SynthEnv)
    (blob_data : BlobData) (full_path : String) (document : Document)
    (h : generate_document cfg env blob_data full_path = .ok (some document)) :
    document.doc_id = blob_data.sha ∧ document.file_path = full_path ∧
    (∃ decoded_bytes, env.b64decode blob_data.content = .ok decoded_bytes ∧
      ((cfg.useParser = true ∧
        parse_supported_file env full_path decoded_bytes blob_data.sha full_path =
          some document ∧
        document.file_name = full_path) ∨
       (env.utf8decode decoded_bytes = .ok document.text ∧
        document.file_name = pyBasename full_path))) := by
  unfold generate_document at h
  by_cases henc : blob_data.encoding = "base64"
  · simp [henc] at h
    rcases hdec : env.b64decode blob_data.content with _ | bytes <;> simp [hdec] at h
    by_cases hup : cfg.useParser
    · simp [hup] at h
      rcases hp : parse_supported_file env full_path bytes blob_data.sha full_path
        with _ | d <;> simp [hp] at h
      · rcases hu : env.utf8decode bytes with _ | t <;> simp [hu] at h
        exact ⟨by simp [← h], by simp [← h], bytes, rfl,
          .inr ⟨by simp [← h, hu], by simp [← h]⟩⟩
      · obtain ⟨h1, h2, h3⟩ :=
          parse_supported_file_fields env full_path bytes blob_data.sha full_path d hp
        subst h
        exact ⟨h1, h2, bytes, rfl, .inl ⟨hup, hp, h3⟩⟩
    · simp [hup] at h
      rcases hu : env.utf8decode bytes with _ | t <;> simp [hu] at h
      exact ⟨by simp [← h], by simp [← h], bytes, rfl,
        .inr ⟨by simp [← h, hu], by simp [← h]⟩⟩
  · simp [henc] at h

/-- Claim C8, witness: the metadata theorem applied to a concrete
fallback-path document: id is the blob's sha, `file_path` the full
path, `file_name` its last segment. -/
theorem generate_document_metadata_witness :
    doc_hi.doc_id = blob_hi.sha ∧ doc_hi.file_path = "dir/a.md" ∧
    (∃ decoded_bytes, env_fix.b64decode blob_hi.content = .ok decoded_bytes ∧
      ((cfg_fallback.useParser = true ∧
        parse_supported_file env_fix "dir/a.md" decoded_bytes blob_hi.sha "dir/a.md" =
          some doc_hi ∧
        doc_hi.file_name = "dir/a.md") ∨
       (env_fix.utf8decode decoded_bytes = .ok doc_hi.text ∧
        doc_hi.file_name = pyBasename "dir/a.md"))) :=
  generate_document_metadata cfg_fallback env_fix blob_hi "dir/a.md" doc_hi rfl

/-! Claim C9. -/

/-- Claim C9: in the filesystem model of `_parse_supported_file`, the
uniquely named temporary file (freshness is the hypothesis
`tmpname ∉ fs`) created for the parser invocation is removed on every
exit path — the filesystem after the call equals the filesystem before
it both when the parser succeeds and when it raises. -/
theorem tempfile_removed_on_all_exit_paths (fs : List String) (tmpname : String)
    (segments : List String) (err : String)
    (_hfresh : tmpname ∉ fs) :
    (parse_supported_file_tempfs fs tmpname (.ok segments)).2 = fs ∧
    (parse_supported_file_tempfs fs tmpname (.error err)).2 = fs := by
  constructor <;> simp [parse_supported_file_tempfs]

/-- Claim C9, witness: the cleanup theorem applied to a concrete
filesystem, temporary file name, and both parser outcomes. -/
theorem tempfile_removed_on_all_exit_paths_witness :
    (parse_supported_file_tempfs ["repo/readme.md"] "tmpdir/tmpabc.pdf"
      (.ok ["page one"])).2 = ["repo/readme.md"] ∧
    (parse_supported_file_tempfs ["repo/readme.md"] "tmpdir/tmpabc.pdf"
      (.error "boom")).2 = ["repo/readme.md"] :=
  tempfile_removed_on_all_exit_paths ["repo/readme.md"] "tmpdir/tmpabc.pdf"
    ["page one"] "boom" (by decide)

/-! Claim C10. -/

/-- Claim C10: the tree walk can only complete when both FilterSpecs
are configured.  For every tree whose children include a subdirectory,
`_recurse_tree` raises the `TypeError` from unpacking `None` whenever
`filter_directories` is `None`; for every tree whose children include a
blob, it raises that `TypeError` whenever `filter_file_extensions` is
`None` — because the walk calls each filter check unconditionally
rather than through `_allow_tree_obj`. -/
theorem recurse_tree_requires_both_filters (cfg : ReaderConfig)
    (objs : List GitObj) (p : String) :
    (cfg.filter_directories = none → (∃ o ∈ objs, GitObj.type o = "tree") →
      recurse_tree cfg objs p = .error .typeError) ∧
    (cfg.filter_file_extensions = none → (∃ o ∈ objs, GitObj.type o = "blob") →
      recurse_tree cfg objs p = .error .typeError) := by
  induction objs generalizing p with
  | nil =>
    constructor <;> rintro h ⟨o, ho, hot⟩ <;> simp at ho
  | cons obj rest ih =>
    obtain ⟨q, t, s, children⟩ := obj
    constructor
    · rintro hnone ⟨o, ho, hot⟩
      by_cases ht : t = "tree"
      · subst ht
        simp [recurse_tree, check_filter_directories, hnone]
      · by_cases hb : t = "blob"
        · subst hb
          have hrest : ∃ o ∈ rest, GitObj.type o = "tree" := by
            rcases List.mem_cons.mp ho with rfl | hmem
            · exact absurd hot (by simp [GitObj.type])
            · exact ⟨o, hmem, hot⟩
          have hr := (ih p).1 hnone hrest
          rcases hchk : check_filter_file_extensions cfg (osPathJoin p q) with e | b
          · have he := check_filter_file_extensions_error_eq cfg _ e hchk
            simp [recurse_tree, hchk, he]
          · cases b
            · simpa [recurse_tree, hchk] using hr
            · simp [recurse_tree, hchk, hr]
        · have hrest : ∃ o ∈ rest, GitObj.type o = "tree" := by
            rcases List.mem_cons.mp ho with rfl | hmem
            · exact absurd hot (by simp [GitObj.type, ht])
            · exact ⟨o, hmem, hot⟩
          simpa [recurse_tree, ht, hb] using (ih p).1 hnone hrest
    · rintro hnone ⟨o, ho, hot⟩
      by_cases ht : t = "tree"
      · subst ht
        have hrest : ∃ o ∈ rest, GitObj.type o = "blob" := by
          rcases List.mem_cons.mp ho with rfl | hmem
          · exact absurd hot (by simp [GitObj.type])
          · exact ⟨o, hmem, hot⟩
        rcases hchk : check_filter_directories cfg (osPathJoin p q) with e | b
        · have he := check_filter_directories_error_eq cfg _ e hchk
          simp [recurse_tree, hchk, he]
        · cases b
          · simpa [recurse_tree, hchk] using (ih p).2 hnone hrest
          · rcases hsub : recurse_tree cfg children (osPathJoin p q) with e | sub
            · have he := recurse_tree_error_eq cfg children _ e hsub
              simp [recurse_tree, hchk, hsub, he]
            · have hr := (ih p).2 hnone hrest
              simp [recurse_tree, hchk, hsub, hr]
      · by_cases hb : t = "blob"
        · subst hb
          simp [recurse_tree, check_filter_file_extensions, hnone]
        · have hrest : ∃ o ∈ rest, GitObj.type o = "blob" := by
            rcases List.mem_cons.mp ho with rfl | hmem
            · exact absurd hot (by simp [GitObj.type, hb])
            · exact ⟨o, hmem, hot⟩
          simpa [recurse_tree, ht, hb] using (ih p).2 hnone hrest

/-- Claim C10, witness: a tree with one subdirectory child walked with
`filter_directories = None` raises `TypeError`, and a tree with one
blob child walked with `filter_file_extensions = None` raises
`TypeError`. -/
theorem recurse_tree_requires_both_filters_witness :
    recurse_tree cfg_no_dirs [GitObj.mk "sub" "tree" "sha-sub" []] "" =
      .error .typeError ∧
    recurse_tree cfg_no_exts [GitObj.mk "a.md" "blob" "sha-amd" []] "" =
      .error .typeError :=
  ⟨(recurse_tree_requires_both_filters cfg_no_dirs
      [GitObj.mk "sub" "tree" "sha-sub" []] "").1 rfl
      ⟨GitObj.mk "sub" "tree" "sha-sub" [], by simp, rfl⟩,
   (recurse_tree_requires_both_filters cfg_no_exts
      [GitObj.mk "a.md" "blob" "sha-amd" []] "").2 rfl
      ⟨GitObj.mk "a.md" "blob" "sha-amd" [], by simp, rfl⟩⟩

end GithubRepo
